import Mathlib

/-!
Verification of the temporal arithmetic physical-expression node
(`DateTimeIntervalExpr` in `physical-expr/src/expressions/datetime.rs`)
of a columnar query engine.

The embedding models the arrow type tags (`DataType`, `TimeUnit`,
`IntervalUnit`), scalar values, columnar values and the node itself.
External collaborators (the scalar arithmetic domain, the element-wise
array primitives from `binary.rs`, the binary type-coercion table, and
the constraint-propagation solver) are abstracted as a bundle of
function parameters (`TemporalOps`), and child sub-expressions are
abstracted behind the trait-object interface (`ExprOps`): the theorems
quantify over every possible implementation of those collaborators,
exactly as the source code defers to them through opaque calls.

Rust slice indexing `children[0]` / `children[1]` panics when out of
bounds; a function that performs such indexing is modelled with result
type `Option (Except ...)` where `none` stands for the panic (as opposed
to `some (.error e)`, a returned error).
-/

set_option maxHeartbeats 1000000

namespace ArrowDF

/-- Arrow timestamp time units. -/
inductive TimeUnit where
  | Second
  | Millisecond
  | Microsecond
  | Nanosecond
deriving DecidableEq, Repr

/-- Arrow interval subtypes. -/
inductive IntervalUnit where
  | YearMonth
  | DayTime
  | MonthDayNano
deriving DecidableEq, Repr

/-- The fragment of the arrow `DataType` enum relevant to the temporal
node: the temporal families it dispatches on plus representative
non-temporal types that exercise the rejecting branches. -/
inductive DataType where
  | Date32
  | Date64
  | Timestamp (unit : TimeUnit) (tz : Option String)
  | Interval (unit : IntervalUnit)
  | Boolean
  | Int64
  | Utf8
  | Null
deriving DecidableEq, Repr

def TimeUnit.fmt : TimeUnit → String
  | .Second => "Second"
  | .Millisecond => "Millisecond"
  | .Microsecond => "Microsecond"
  | .Nanosecond => "Nanosecond"

def IntervalUnit.fmt : IntervalUnit → String
  | .YearMonth => "YearMonth"
  | .DayTime => "DayTime"
  | .MonthDayNano => "MonthDayNano"

def fmtTz : Option String → String
  | none => "None"
  | some s => "Some(\"" ++ s ++ "\")"

/-- Display rendering of a data type (arrow renders `Display` via the
debug formatting of the enum). -/
def DataType.fmt : DataType → String
  | .Date32 => "Date32"
  | .Date64 => "Date64"
  | .Timestamp u tz => "Timestamp(" ++ u.fmt ++ ", " ++ fmtTz tz ++ ")"
  | .Interval u => "Interval(" ++ u.fmt ++ ")"
  | .Boolean => "Boolean"
  | .Int64 => "Int64"
  | .Utf8 => "Utf8"
  | .Null => "Null"

/-- The binary operators of the engine that this node can encounter:
`Plus` and `Minus` are the only ones accepted at construction; the
comparison and multiplicative operators exercise the rejecting branches
and the comparison-propagation path. -/
inductive Operator where
  | Plus
  | Minus
  | Multiply
  | Eq
  | Lt
  | Gt
deriving DecidableEq, Repr

def Operator.fmt : Operator → String
  | .Plus => "+"
  | .Minus => "-"
  | .Multiply => "*"
  | .Eq => "="
  | .Lt => "<"
  | .Gt => ">"

/-- Typed scalar values of the scalar domain (`ScalarValue`): the
temporal families plus representatives of other types. `none` payloads
are NULL scalars. -/
inductive ScalarValue where
  | Boolean (v : Option Bool)
  | Date32 (v : Option Int)
  | Date64 (v : Option Int)
  | TimestampSecond (v : Option Int) (tz : Option String)
  | TimestampMillisecond (v : Option Int) (tz : Option String)
  | TimestampMicrosecond (v : Option Int) (tz : Option String)
  | TimestampNanosecond (v : Option Int) (tz : Option String)
  | IntervalYearMonth (v : Option Int)
  | IntervalDayTime (v : Option Int)
  | IntervalMonthDayNano (v : Option Int)
  | Int64 (v : Option Int)
  | Utf8 (v : Option String)
  | Null
deriving DecidableEq, Repr

/-- Embedding of `ScalarValue::get_datatype`. -/
def ScalarValue.get_datatype : ScalarValue → DataType
  | .Boolean _ => .Boolean
  | .Date32 _ => .Date32
  | .Date64 _ => .Date64
  | .TimestampSecond _ tz => .Timestamp .Second tz
  | .TimestampMillisecond _ tz => .Timestamp .Millisecond tz
  | .TimestampMicrosecond _ tz => .Timestamp .Microsecond tz
  | .TimestampNanosecond _ tz => .Timestamp .Nanosecond tz
  | .IntervalYearMonth _ => .Interval .YearMonth
  | .IntervalDayTime _ => .Interval .DayTime
  | .IntervalMonthDayNano _ => .Interval .MonthDayNano
  | .Int64 _ => .Int64
  | .Utf8 _ => .Utf8
  | .Null => .Null

/-- An arrow array reference: an element type tag plus the primitive
value buffer (one `Option Int` per slot, `none` for a NULL slot). -/
structure ArrayRef where
  dtype : DataType
  values : List (Option Int)
deriving DecidableEq, Repr

/-- Embedding of `Array::data_type`. -/
def ArrayRef.data_type (a : ArrayRef) : DataType := a.dtype

/-- Embedding of `ColumnarValue`: a single scalar or an array. -/
inductive ColumnarValue where
  | Scalar (s : ScalarValue)
  | Array (a : ArrayRef)
deriving DecidableEq, Repr

/-- The error enum fragment used by this node: user-facing execution
errors and internal invariant-violation errors. -/
inductive DataFusionError where
  | Execution (msg : String)
  | Internal (msg : String)
deriving DecidableEq, Repr

/-- A schema field (name, type, nullability). -/
structure SchemaField where
  name : String
  dtype : DataType
  nullable : Bool
deriving DecidableEq, Repr

/-- An input row schema. -/
structure Schema where
  fields : List SchemaField
deriving DecidableEq, Repr

/-- Modelled from the spec: the optimizer bound `Interval` of the
external constraint-propagation collaborator (`cp_solver`, not under
the verified sources) — an abstract closed range with boolean sentinel
ranges. -/
structure CPInterval where
  lower : ScalarValue
  upper : ScalarValue
deriving DecidableEq, Repr

/-- Modelled from the spec: the "definitely false" boolean range
sentinel of the external bound collaborator. -/
def CPInterval.CERTAINLY_FALSE : CPInterval :=
  ⟨.Boolean (some false), .Boolean (some false)⟩

/-- The trait-object interface through which the node sees its child
sub-expressions (`Arc<dyn PhysicalExpr>`): declared type, nullability,
evaluation against a batch, and structural equality. `E` is the child
expression type and `B` the batch type; the theorems quantify over
both. -/
structure ExprOps (E B : Type) where
  data_type : E → Schema → Except DataFusionError DataType
  nullable : E → Schema → Except DataFusionError Bool
  evaluate : E → B → Except DataFusionError ColumnarValue
  beq : E → E → Bool

/-- The bundle of external collaborator functions the node calls:
the scalar domain arithmetic, the per-element primitives of
`binary.rs`, `date32_add`/`date64_add`, the binary type-coercion
table, and the constraint-propagation primitives. All are outside the
verified source; the theorems quantify over every implementation. -/
structure TemporalOps where
  scalar_add : ScalarValue → ScalarValue → Except DataFusionError ScalarValue
  scalar_sub : ScalarValue → ScalarValue → Except DataFusionError ScalarValue
  date32_add : Int → ScalarValue → Int → Except DataFusionError Int
  date64_add : Int → ScalarValue → Int → Except DataFusionError Int
  ts_scalar_ts_op : ArrayRef → ScalarValue → Except DataFusionError ColumnarValue
  interval_scalar_interval_op :
    ArrayRef → Int → ScalarValue → Except DataFusionError ColumnarValue
  ts_scalar_interval_op :
    ArrayRef → Int → ScalarValue → Except DataFusionError ColumnarValue
  ts_array_op : ArrayRef → ArrayRef → Except DataFusionError ArrayRef
  interval_array_op : ArrayRef → ArrayRef → Int → Except DataFusionError ArrayRef
  ts_interval_array_op : ArrayRef → Int → ArrayRef → Except DataFusionError ArrayRef
  coerce_types : DataType → Operator → DataType → Except DataFusionError DataType
  apply_operator : Operator → CPInterval → CPInterval → Except DataFusionError CPInterval
  propagate_comparison :
    Operator → CPInterval → CPInterval →
      Except DataFusionError (Option CPInterval × Option CPInterval)
  propagate_arithmetic :
    Operator → CPInterval → CPInterval → CPInterval →
      Except DataFusionError (Option CPInterval × Option CPInterval)
  is_comparison_op : Operator → Bool

/-- The temporal arithmetic node: left child, operator, right child and
the resolved input schema captured at construction. -/
structure DateTimeIntervalExpr (E : Type) where
  lhs : E
  op : Operator
  rhs : E
  input_schema : Schema

/-- Arrow `compute::try_unary` specialised to this node's use: apply a
fallible function to each valid slot, propagate NULL slots, abort the
whole transform on the first error. -/
def try_unary (op : Int → Except DataFusionError Int) :
    List (Option Int) → Except DataFusionError (List (Option Int))
  | [] => .ok []
  | none :: rest =>
    match try_unary op rest with
    | .error e => .error e
    | .ok vs => .ok (none :: vs)
  | some v :: rest =>
    match op v with
    | .error e => .error e
    | .ok w =>
      match try_unary op rest with
      | .error e => .error e
      | .ok vs => .ok (some w :: vs)

/-- Single quote character, used in error message formatting. -/
def sq : String := String.singleton (Char.ofNat 39)

/-- The construction-time type-mismatch error message:
`format!("Invalid operation {op} between '{lhs}' and '{rhs}' for DateIntervalExpr")`. -/
def invalidOpMsg (op : Operator) (lt rt : DataType) : String :=
  "Invalid operation " ++ op.fmt ++ " between " ++ sq ++ lt.fmt ++ sq ++
    " and " ++ sq ++ rt.fmt ++ sq ++ " for DateIntervalExpr"

/-- Embedding of `DateTimeIntervalExpr::try_new`: resolve both children's declared
types against the schema (propagating their errors), then accept
exactly the fixed table of (left type, operator, right type)
combinations; otherwise fail with the type-mismatch execution error. -/
def DateTimeIntervalExpr.try_new {E B : Type} (ops : ExprOps E B)
    (lhs : E) (op : Operator) (rhs : E) (input_schema : Schema) :
    Except DataFusionError (DateTimeIntervalExpr E) :=
  match ops.data_type lhs input_schema with
  | .error e => .error e
  | .ok lt =>
    match ops.data_type rhs input_schema with
    | .error e => .error e
    | .ok rt =>
      match lt, op, rt with
      | .Date32, .Plus, .Interval _ => .ok ⟨lhs, op, rhs, input_schema⟩
      | .Date32, .Minus, .Interval _ => .ok ⟨lhs, op, rhs, input_schema⟩
      | .Date64, .Plus, .Interval _ => .ok ⟨lhs, op, rhs, input_schema⟩
      | .Date64, .Minus, .Interval _ => .ok ⟨lhs, op, rhs, input_schema⟩
      | .Timestamp _ _, .Plus, .Interval _ => .ok ⟨lhs, op, rhs, input_schema⟩
      | .Timestamp _ _, .Minus, .Interval _ => .ok ⟨lhs, op, rhs, input_schema⟩
      | .Timestamp _ _, .Minus, .Timestamp _ _ => .ok ⟨lhs, op, rhs, input_schema⟩
      | .Interval _, .Plus, .Timestamp _ _ => .ok ⟨lhs, op, rhs, input_schema⟩
      | .Interval _, .Plus, .Interval _ => .ok ⟨lhs, op, rhs, input_schema⟩
      | .Interval _, .Minus, .Interval _ => .ok ⟨lhs, op, rhs, input_schema⟩
      | lt, _, rt => .error (.Execution (invalidOpMsg op lt rt))

/-- Embedding of `PhysicalExpr::data_type` for the node: the binary type-coercion
rule applied with the `Minus` operator to the two children's types. -/
def DateTimeIntervalExpr.data_type {E B : Type} (ops : ExprOps E B) (t : TemporalOps)
    (n : DateTimeIntervalExpr E) (input_schema : Schema) :
    Except DataFusionError DataType :=
  match ops.data_type n.lhs input_schema with
  | .error e => .error e
  | .ok lt =>
    match ops.data_type n.rhs input_schema with
    | .error e => .error e
    | .ok rt => t.coerce_types lt .Minus rt

/-- Embedding of `PhysicalExpr::nullable` for the node: the left child's
nullability. -/
def DateTimeIntervalExpr.nullable {E B : Type} (ops : ExprOps E B)
    (n : DateTimeIntervalExpr E) (input_schema : Schema) :
    Except DataFusionError Bool :=
  ops.nullable n.lhs input_schema

/-- The operator-to-sign map inside `evaluate`: `Plus → 1`,
`Minus → -1`, anything else is the internal-error early return. -/
def signOf : Operator → Option Int
  | .Plus => some 1
  | .Minus => some (-1)
  | _ => none

/-- Embedding of `evaluate_temporal_array` (the scalar-array evaluator): dispatch on
(array element type, scalar type). The (Timestamp, Timestamp) arm in
the source carries the guard `if sign == -1`; a failed guard falls
through the remaining arms (none of which match a Timestamp scrutinee
pair) into the catch-all error, which is what the `else` branch
returns here. -/
def evaluate_temporal_array (t : TemporalOps) (array : ArrayRef) (sign : Int)
    (scalar : ScalarValue) : Except DataFusionError ColumnarValue :=
  match array.data_type, scalar.get_datatype with
  | .Date32, .Interval _ =>
    match try_unary (fun days => t.date32_add days scalar sign) array.values with
    | .error e => .error e
    | .ok vs => .ok (.Array ⟨.Date32, vs⟩)
  | .Date64, .Interval _ =>
    match try_unary (fun ms => t.date64_add ms scalar sign) array.values with
    | .error e => .error e
    | .ok vs => .ok (.Array ⟨.Date64, vs⟩)
  | .Timestamp _ _, .Timestamp _ _ =>
    if sign = -1 then
      t.ts_scalar_ts_op array scalar
    else
      .error (.Execution
        ("Invalid lhs type for DateIntervalExpr: " ++ (array.data_type).fmt))
  | .Interval _, .Interval _ => t.interval_scalar_interval_op array sign scalar
  | .Timestamp _ _, .Interval _ => t.ts_scalar_interval_op array sign scalar
  | _, _ =>
    .error (.Execution
      ("Invalid lhs type for DateIntervalExpr: " ++ (array.data_type).fmt))

/-- Embedding of `evaluate_temporal_arrays` (the array-array evaluator): dispatch on
(left element type, right element type); the (Interval, Timestamp) arm
carries the guard `if sign == 1` and commutes the operands, a failed
guard falls through to the catch-all error. -/
def evaluate_temporal_arrays (t : TemporalOps) (array_lhs : ArrayRef) (sign : Int)
    (array_rhs : ArrayRef) : Except DataFusionError ColumnarValue :=
  match array_lhs.data_type, array_rhs.data_type with
  | .Timestamp _ _, .Timestamp _ _ =>
    match t.ts_array_op array_lhs array_rhs with
    | .error e => .error e
    | .ok ret => .ok (.Array ret)
  | .Interval _, .Interval _ =>
    match t.interval_array_op array_lhs array_rhs sign with
    | .error e => .error e
    | .ok ret => .ok (.Array ret)
  | .Timestamp _ _, .Interval _ =>
    match t.ts_interval_array_op array_lhs sign array_rhs with
    | .error e => .error e
    | .ok ret => .ok (.Array ret)
  | .Interval _, .Timestamp _ _ =>
    if sign = 1 then
      match t.ts_interval_array_op array_rhs sign array_lhs with
      | .error e => .error e
      | .ok ret => .ok (.Array ret)
    else
      .error (.Execution
        ("Invalid array types for DateIntervalExpr: " ++
          (array_lhs.data_type).fmt ++ " " ++ toString sign ++ " " ++
          (array_rhs.data_type).fmt))
  | _, _ =>
    .error (.Execution
      ("Invalid array types for DateIntervalExpr: " ++
        (array_lhs.data_type).fmt ++ " " ++ toString sign ++ " " ++
        (array_rhs.data_type).fmt))

/-- Embedding of `PhysicalExpr::evaluate` for the node: evaluate both children,
map the operator to a sign (internal error for any other operator),
then dispatch on the pair of runtime value shapes. -/
def DateTimeIntervalExpr.evaluate {E B : Type} (ops : ExprOps E B) (t : TemporalOps)
    (n : DateTimeIntervalExpr E) (batch : B) :
    Except DataFusionError ColumnarValue :=
  match ops.evaluate n.lhs batch with
  | .error e => .error e
  | .ok lhs_value =>
    match ops.evaluate n.rhs batch with
    | .error e => .error e
    | .ok rhs_value =>
      match signOf n.op with
      | none => .error (.Internal "Invalid operator for DateIntervalExpr")
      | some sign =>
        match lhs_value, rhs_value with
        | .Scalar operand_lhs, .Scalar operand_rhs =>
          match (if sign > 0 then t.scalar_add operand_lhs operand_rhs
                 else t.scalar_sub operand_lhs operand_rhs) with
          | .error e => .error e
          | .ok v => .ok (.Scalar v)
        | .Array array_lhs, .Scalar operand_rhs =>
          evaluate_temporal_array t array_lhs sign operand_rhs
        | .Array array_lhs, .Array array_rhs =>
          evaluate_temporal_arrays t array_lhs sign array_rhs
        | _, _ =>
          .error (.Internal "If RHS of the operation is an array, then LHS also must be")

/-- Embedding of `PhysicalExpr::evaluate_bounds`: index positions 0 and 1 of the
children-bounds slice (a Rust panic when out of bounds, modelled as
`none`), then apply the external operator-application primitive. -/
def DateTimeIntervalExpr.evaluate_bounds {E : Type} (t : TemporalOps)
    (n : DateTimeIntervalExpr E) (children : List CPInterval) :
    Option (Except DataFusionError CPInterval) :=
  match children.get? 0 with
  | none => none
  | some left_interval =>
    match children.get? 1 with
    | none => none
    | some right_interval => some (t.apply_operator n.op left_interval right_interval)

/-- Embedding of `PhysicalExpr::propagate_constraints`: index positions 0 and 1 of
the children-bounds slice (a Rust panic when out of bounds, modelled as
`none`); for a comparison operator short-circuit the certainly-false
target to an empty result, else delegate to comparison propagation;
for an arithmetic operator delegate to arithmetic propagation. -/
def DateTimeIntervalExpr.propagate_constraints {E : Type} (t : TemporalOps)
    (n : DateTimeIntervalExpr E) (interval : CPInterval)
    (children : List CPInterval) :
    Option (Except DataFusionError (List (Option CPInterval))) :=
  match children.get? 0 with
  | none => none
  | some left_interval =>
    match children.get? 1 with
    | none => none
    | some right_interval =>
      some (if t.is_comparison_op n.op then
              if interval = CPInterval.CERTAINLY_FALSE then
                .ok []
              else
                match t.propagate_comparison n.op left_interval right_interval with
                | .error e => .error e
                | .ok (left, right) => .ok [left, right]
            else
              match t.propagate_arithmetic n.op interval left_interval right_interval with
              | .error e => .error e
              | .ok (left, right) => .ok [left, right])

/-- Embedding of `PhysicalExpr::children`: the two children in left-then-right
order. -/
def DateTimeIntervalExpr.children {E : Type} (n : DateTimeIntervalExpr E) : List E :=
  [n.lhs, n.rhs]

/-- Embedding of `PhysicalExpr::with_new_children`: index positions 0 and 1 of the
new-children vector (a Rust panic when out of bounds, modelled as
`none`) and re-run `try_new` with the node's operator and stored
schema. -/
def DateTimeIntervalExpr.with_new_children {E B : Type} (ops : ExprOps E B)
    (n : DateTimeIntervalExpr E) (children : List E) :
    Option (Except DataFusionError (DateTimeIntervalExpr E)) :=
  match children.get? 0 with
  | none => none
  | some c0 =>
    match children.get? 1 with
    | none => none
    | some c1 => some (DateTimeIntervalExpr.try_new ops c0 n.op c1 n.input_schema)

/-- A value behind `&dyn Any`: either (a reference to) a temporal
arithmetic node or some other physical expression, which the downcast
in the equality implementation rejects. -/
inductive AnyRef (E : Type) where
  | dtExpr (n : DateTimeIntervalExpr E)
  | other (tag : Nat)

/-- Embedding of `PartialEq<dyn Any> for DateTimeIntervalExpr`: downcast, then
compare left child, operator and right child; `false` when the
downcast fails. The stored input schema is not compared. -/
def DateTimeIntervalExpr.eqAny {E B : Type} (ops : ExprOps E B)
    (n : DateTimeIntervalExpr E) (o : AnyRef E) : Bool :=
  match o with
  | .dtExpr x => ops.beq n.lhs x.lhs && decide (n.op = x.op) && ops.beq n.rhs x.rhs
  | .other _ => false

/-- Follows the spec's words (§4.1 accepted-combination table), for
comparison with `try_new`: Date32/Date64/Timestamp ± Interval,
Timestamp − Timestamp, Interval + Timestamp, Interval ± Interval. -/
def acceptedTripleSpec (lt : DataType) (op : Operator) (rt : DataType) : Bool :=
  match lt, op, rt with
  | .Date32, .Plus, .Interval _ => true
  | .Date32, .Minus, .Interval _ => true
  | .Date64, .Plus, .Interval _ => true
  | .Date64, .Minus, .Interval _ => true
  | .Timestamp _ _, .Plus, .Interval _ => true
  | .Timestamp _ _, .Minus, .Interval _ => true
  | .Timestamp _ _, .Minus, .Timestamp _ _ => true
  | .Interval _, .Plus, .Timestamp _ _ => true
  | .Interval _, .Plus, .Interval _ => true
  | .Interval _, .Minus, .Interval _ => true
  | _, _, _ => false

/-- Follows the spec's words (§4.3 dispatch table with its sign
constraint), for comparison with `evaluate_temporal_array`: the pairs
of (array element type, scalar type) the scalar-array evaluator
covers. -/
def scalarArrayCoveredSpec (adt sdt : DataType) (sign : Int) : Bool :=
  match adt, sdt with
  | .Date32, .Interval _ => true
  | .Date64, .Interval _ => true
  | .Timestamp _ _, .Timestamp _ _ => decide (sign = -1)
  | .Interval _, .Interval _ => true
  | .Timestamp _ _, .Interval _ => true
  | _, _ => false

/-- Follows the spec's words (§4.4 dispatch table with its sign
constraint), for comparison with `evaluate_temporal_arrays`: the pairs
of (left element type, right element type) the array-array evaluator
covers. -/
def arrayArrayCoveredSpec (ldt rdt : DataType) (sign : Int) : Bool :=
  match ldt, rdt with
  | .Timestamp _ _, .Timestamp _ _ => true
  | .Interval _, .Interval _ => true
  | .Timestamp _ _, .Interval _ => true
  | .Interval _, .Timestamp _ _ => decide (sign = 1)
  | _, _ => false

/-! Concrete instances used to exercise the theorems on closed inputs. -/

/-- A one-column test schema. -/
def testSchema : Schema := ⟨[⟨"a", .Date32, false⟩]⟩

/-- A second, different test schema. -/
def testSchema2 : Schema := ⟨[]⟩

/-- A concrete child-expression interface over `Nat`-indexed leaf
expressions: 0 is a Date32 literal, 1 an interval literal, 3 a
timestamp literal, 10/11 array-producing columns, 2 an Int64 leaf. -/
def testOps : ExprOps Nat Unit where
  data_type := fun e _ =>
    if e = 0 then .ok .Date32
    else if e = 1 then .ok (.Interval .DayTime)
    else if e = 2 then .ok .Int64
    else if e = 3 then .ok (.Timestamp .Second none)
    else .error (.Execution "unknown column")
  nullable := fun e _ => .ok (decide (e = 0))
  evaluate := fun e _ =>
    if e = 0 then .ok (.Scalar (.Date32 (some 0)))
    else if e = 1 then .ok (.Scalar (.IntervalDayTime (some 0)))
    else if e = 10 then .ok (.Array ⟨.Date32, [some 0]⟩)
    else if e = 11 then .ok (.Array ⟨.Interval .DayTime, [some 0]⟩)
    else .error (.Execution "unknown column")
  beq := fun a b => a == b

/-- A concrete collaborator bundle with simple total behaviours. -/
def testT : TemporalOps where
  scalar_add := fun _ _ => .ok .Null
  scalar_sub := fun _ _ => .ok (.Int64 (some 0))
  date32_add := fun d _ _ => .ok d
  date64_add := fun d _ _ => .ok d
  ts_scalar_ts_op := fun a _ => .ok (.Array a)
  interval_scalar_interval_op := fun a _ _ => .ok (.Array a)
  ts_scalar_interval_op := fun a _ _ => .ok (.Array a)
  ts_array_op := fun a _ => .ok a
  interval_array_op := fun a _ _ => .ok a
  ts_interval_array_op := fun a _ _ => .ok a
  coerce_types := fun lt _ _ => .ok lt
  apply_operator := fun _ l _ => .ok l
  propagate_comparison := fun _ l r => .ok (some l, some r)
  propagate_arithmetic := fun _ _ l r => .ok (some l, some r)
  is_comparison_op := fun o =>
    decide (o = .Eq) || decide (o = .Lt) || decide (o = .Gt)

/-! Claim theorems. -/

/-- C1: `try_new` succeeds, with the node holding exactly the given
children, operator and schema, if and only if the (left type,
operator, right type) triple is in the accepted table; every other
triple fails with the execution error naming the two concrete types
and the operator. -/
theorem c1_try_new_type_gate {E B : Type} (ops : ExprOps E B) (lhs : E) (op : Operator)
    (rhs : E) (s : Schema) (lt rt : DataType)
    (hl : ops.data_type lhs s = .ok lt) (hr : ops.data_type rhs s = .ok rt) :
    (acceptedTripleSpec lt op rt = true →
      DateTimeIntervalExpr.try_new ops lhs op rhs s = .ok ⟨lhs, op, rhs, s⟩) ∧
    (acceptedTripleSpec lt op rt = false →
      DateTimeIntervalExpr.try_new ops lhs op rhs s =
        .error (.Execution (invalidOpMsg op lt rt))) := by
  constructor <;> intro hacc <;>
    · simp only [DateTimeIntervalExpr.try_new, hl, hr]
      cases lt <;> cases op <;> cases rt <;> simp_all [acceptedTripleSpec]

theorem c1_witness :
    acceptedTripleSpec .Date32 .Plus (.Interval .DayTime) = true ∧
    DateTimeIntervalExpr.try_new testOps 0 .Plus 1 testSchema =
      .ok ⟨0, .Plus, 1, testSchema⟩ ∧
    acceptedTripleSpec .Date32 .Multiply .Int64 = false ∧
    DateTimeIntervalExpr.try_new testOps 0 .Multiply 2 testSchema =
      .error (.Execution (invalidOpMsg .Multiply .Date32 .Int64)) :=
  ⟨rfl,
   (c1_try_new_type_gate testOps 0 .Plus 1 testSchema .Date32 (.Interval .DayTime)
      rfl rfl).1 rfl,
   rfl,
   (c1_try_new_type_gate testOps 0 .Multiply 2 testSchema .Date32 .Int64
      rfl rfl).2 rfl⟩

/-- C6: `data_type` does not depend on the node's own operator, and
equals the binary type-coercion rule applied with the `Minus` operator
to the two children's resolved types. -/
theorem c6_data_type_minus_coercion {E B : Type} (ops : ExprOps E B) (t : TemporalOps)
    (n : DateTimeIntervalExpr E) (s : Schema) :
    (∀ op2, DateTimeIntervalExpr.data_type ops t ⟨n.lhs, op2, n.rhs, n.input_schema⟩ s =
      DateTimeIntervalExpr.data_type ops t n s) ∧
    (∀ lt rt, ops.data_type n.lhs s = .ok lt → ops.data_type n.rhs s = .ok rt →
      DateTimeIntervalExpr.data_type ops t n s = t.coerce_types lt .Minus rt) := by
  constructor
  · intro op2
    rfl
  · intro lt rt hl hr
    simp [DateTimeIntervalExpr.data_type, hl, hr]

theorem c6_witness :
    DateTimeIntervalExpr.data_type testOps testT ⟨0, .Plus, 1, testSchema⟩ testSchema =
      testT.coerce_types .Date32 .Minus (.Interval .DayTime) :=
  (c6_data_type_minus_coercion testOps testT ⟨0, .Plus, 1, testSchema⟩ testSchema).2
    .Date32 (.Interval .DayTime) rfl rfl

/-- C7: `nullable` equals exactly the left child's nullability and is
unaffected by the right child (as well as the operator and the stored
schema). -/
theorem c7_nullable_left_only {E B : Type} (ops : ExprOps E B)
    (n : DateTimeIntervalExpr E) (s : Schema) :
    DateTimeIntervalExpr.nullable ops n s = ops.nullable n.lhs s ∧
    (∀ r2 op2 s2, DateTimeIntervalExpr.nullable ops ⟨n.lhs, op2, r2, s2⟩ s =
      DateTimeIntervalExpr.nullable ops n s) := by
  exact ⟨rfl, fun r2 op2 s2 => rfl⟩

/-- C2: when both children evaluate successfully, `evaluate` dispatches
on the runtime shapes: (Scalar, Scalar) applies the scalar domain's
`add` for `Plus` and `sub` for `Minus`; (Array, Scalar) and
(Array, Array) delegate to the scalar-array and array-array evaluators
with the operator's sign; (Scalar, Array) always fails with an
internal error. -/
theorem c2_evaluate_shape_dispatch {E B : Type} (ops : ExprOps E B) (t : TemporalOps)
    (n : DateTimeIntervalExpr E) (batch : B) (v1 v2 : ColumnarValue)
    (hl : ops.evaluate n.lhs batch = .ok v1) (hr : ops.evaluate n.rhs batch = .ok v2) :
    (∀ l r, n.op = .Plus → v1 = .Scalar l → v2 = .Scalar r →
      DateTimeIntervalExpr.evaluate ops t n batch =
        Except.map ColumnarValue.Scalar (t.scalar_add l r)) ∧
    (∀ l r, n.op = .Minus → v1 = .Scalar l → v2 = .Scalar r →
      DateTimeIntervalExpr.evaluate ops t n batch =
        Except.map ColumnarValue.Scalar (t.scalar_sub l r)) ∧
    (∀ sign a r, signOf n.op = some sign → v1 = .Array a → v2 = .Scalar r →
      DateTimeIntervalExpr.evaluate ops t n batch =
        evaluate_temporal_array t a sign r) ∧
    (∀ sign a b, signOf n.op = some sign → v1 = .Array a → v2 = .Array b →
      DateTimeIntervalExpr.evaluate ops t n batch =
        evaluate_temporal_arrays t a sign b) ∧
    (∀ l b, v1 = .Scalar l → v2 = .Array b →
      ∃ msg, DateTimeIntervalExpr.evaluate ops t n batch = .error (.Internal msg)) := by
  refine ⟨?_, ?_, ?_, ?_, ?_⟩
  · intro l r hop h1 h2
    subst h1; subst h2
    simp only [DateTimeIntervalExpr.evaluate, hl, hr, hop, signOf]
    cases h : t.scalar_add l r <;> simp [Except.map, h]
  · intro l r hop h1 h2
    subst h1; subst h2
    simp only [DateTimeIntervalExpr.evaluate, hl, hr, hop, signOf]
    cases h : t.scalar_sub l r <;> simp [Except.map, h]
  · intro sign a r hop h1 h2
    subst h1; subst h2
    simp only [DateTimeIntervalExpr.evaluate, hl, hr, hop]
  · intro sign a b hop h1 h2
    subst h1; subst h2
    simp only [DateTimeIntervalExpr.evaluate, hl, hr, hop]
  · intro l b h1 h2
    subst h1; subst h2
    cases hop : signOf n.op with
    | none =>
      exact ⟨"Invalid operator for DateIntervalExpr",
        by simp only [DateTimeIntervalExpr.evaluate, hl, hr, hop]⟩
    | some sign =>
      exact ⟨"If RHS of the operation is an array, then LHS also must be",
        by simp only [DateTimeIntervalExpr.evaluate, hl, hr, hop]⟩

theorem c2_witness :
    DateTimeIntervalExpr.evaluate testOps testT ⟨0, .Plus, 1, testSchema⟩ () =
      Except.map ColumnarValue.Scalar
        (testT.scalar_add (.Date32 (some 0)) (.IntervalDayTime (some 0))) ∧
    (∃ msg, DateTimeIntervalExpr.evaluate testOps testT ⟨0, .Plus, 11, testSchema⟩ () =
      .error (.Internal msg)) :=
  ⟨(c2_evaluate_shape_dispatch testOps testT ⟨0, .Plus, 1, testSchema⟩ ()
      (.Scalar (.Date32 (some 0))) (.Scalar (.IntervalDayTime (some 0)))
      rfl rfl).1 _ _ rfl rfl rfl,
   (c2_evaluate_shape_dispatch testOps testT ⟨0, .Plus, 11, testSchema⟩ ()
      (.Scalar (.Date32 (some 0))) (.Array ⟨.Interval .DayTime, [some 0]⟩)
      rfl rfl).2.2.2.2 _ _ rfl rfl⟩

/-- C3: the scalar-array evaluator handles the (Timestamp array,
Timestamp scalar) pair only under `sign = -1`, delegating to the
timestamp-minus-timestamp primitive; every (element type, scalar type)
pair outside its dispatch table — including (Timestamp, Timestamp)
with a sign other than `-1` — fails with the execution error naming
the array's element type. -/
theorem c3_scalar_array_dispatch (t : TemporalOps) (array : ArrayRef) (sign : Int)
    (scalar : ScalarValue) :
    (∀ u tz u2 tz2, array.data_type = .Timestamp u tz →
      scalar.get_datatype = .Timestamp u2 tz2 → sign = -1 →
      evaluate_temporal_array t array sign scalar = t.ts_scalar_ts_op array scalar) ∧
    (scalarArrayCoveredSpec array.data_type scalar.get_datatype sign = false →
      evaluate_temporal_array t array sign scalar =
        .error (.Execution
          ("Invalid lhs type for DateIntervalExpr: " ++ (array.data_type).fmt))) := by
  obtain ⟨adt, vs⟩ := array
  constructor
  · intro u tz u2 tz2 ha hs hsign
    simp only [ArrayRef.data_type] at ha
    subst ha; subst hsign
    simp [evaluate_temporal_array, ArrayRef.data_type, hs]
  · intro hcov
    rcases ha : adt <;> rcases hs : scalar.get_datatype <;>
      simp_all [evaluate_temporal_array, ArrayRef.data_type, scalarArrayCoveredSpec]

theorem c3_witness :
    evaluate_temporal_array testT ⟨.Timestamp .Second none, [some 0]⟩ (-1)
        (.TimestampSecond (some 5) none) =
      testT.ts_scalar_ts_op ⟨.Timestamp .Second none, [some 0]⟩
        (.TimestampSecond (some 5) none) ∧
    evaluate_temporal_array testT ⟨.Timestamp .Second none, [some 0]⟩ 1
        (.TimestampSecond (some 5) none) =
      .error (.Execution
        ("Invalid lhs type for DateIntervalExpr: " ++
          (DataType.Timestamp .Second none).fmt)) :=
  ⟨(c3_scalar_array_dispatch testT ⟨.Timestamp .Second none, [some 0]⟩ (-1)
      (.TimestampSecond (some 5) none)).1 .Second none .Second none rfl rfl rfl,
   (c3_scalar_array_dispatch testT ⟨.Timestamp .Second none, [some 0]⟩ 1
      (.TimestampSecond (some 5) none)).2 (by decide)⟩

/-- C4: the array-array evaluator always produces element-wise
timestamp subtraction for (Timestamp, Timestamp) operands, with the
sign argument ignored; (Interval, Timestamp) with `sign = 1` commutes
into the timestamp-plus-interval primitive; every pairing outside the
dispatch table — including (Interval, Timestamp) with `sign = -1` —
fails with the execution error naming both element types and the
sign. -/
theorem c4_array_array_dispatch (t : TemporalOps) (array_lhs array_rhs : ArrayRef)
    (sign : Int) :
    (∀ u1 z1 u2 z2, array_lhs.data_type = .Timestamp u1 z1 →
      array_rhs.data_type = .Timestamp u2 z2 →
      evaluate_temporal_arrays t array_lhs sign array_rhs =
        Except.map ColumnarValue.Array (t.ts_array_op array_lhs array_rhs)) ∧
    (∀ iu u2 z2, array_lhs.data_type = .Interval iu →
      array_rhs.data_type = .Timestamp u2 z2 → sign = 1 →
      evaluate_temporal_arrays t array_lhs sign array_rhs =
        Except.map ColumnarValue.Array (t.ts_interval_array_op array_rhs sign array_lhs)) ∧
    (arrayArrayCoveredSpec array_lhs.data_type array_rhs.data_type sign = false →
      evaluate_temporal_arrays t array_lhs sign array_rhs =
        .error (.Execution
          ("Invalid array types for DateIntervalExpr: " ++
            (array_lhs.data_type).fmt ++ " " ++ toString sign ++ " " ++
            (array_rhs.data_type).fmt))) := by
  obtain ⟨ldt, lvs⟩ := array_lhs
  obtain ⟨rdt, rvs⟩ := array_rhs
  refine ⟨?_, ?_, ?_⟩
  · intro u1 z1 u2 z2 hl hr
    simp only [ArrayRef.data_type] at hl hr
    subst hl; subst hr
    simp only [evaluate_temporal_arrays, ArrayRef.data_type]
    cases h : t.ts_array_op ⟨.Timestamp u1 z1, lvs⟩ ⟨.Timestamp u2 z2, rvs⟩ <;>
      simp [Except.map, h]
  · intro iu u2 z2 hl hr hsign
    simp only [ArrayRef.data_type] at hl hr
    subst hl; subst hr; subst hsign
    simp only [evaluate_temporal_arrays, ArrayRef.data_type, if_pos rfl]
    cases h : t.ts_interval_array_op ⟨.Timestamp u2 z2, rvs⟩ 1 ⟨.Interval iu, lvs⟩ <;>
      simp [Except.map, h]
  · intro hcov
    rcases hl : ldt <;> rcases hr : rdt <;>
      simp_all [evaluate_temporal_arrays, ArrayRef.data_type, arrayArrayCoveredSpec]

theorem c4_witness :
    evaluate_temporal_arrays testT ⟨.Timestamp .Second none, [some 0]⟩ 1
        ⟨.Timestamp .Second none, [some 3]⟩ =
      Except.map ColumnarValue.Array
        (testT.ts_array_op ⟨.Timestamp .Second none, [some 0]⟩
          ⟨.Timestamp .Second none, [some 3]⟩) ∧
    evaluate_temporal_arrays testT ⟨.Interval .DayTime, [some 0]⟩ 1
        ⟨.Timestamp .Second none, [some 3]⟩ =
      Except.map ColumnarValue.Array
        (testT.ts_interval_array_op ⟨.Timestamp .Second none, [some 3]⟩ 1
          ⟨.Interval .DayTime, [some 0]⟩) ∧
    evaluate_temporal_arrays testT ⟨.Interval .DayTime, [some 0]⟩ (-1)
        ⟨.Timestamp .Second none, [some 3]⟩ =
      .error (.Execution
        ("Invalid array types for DateIntervalExpr: " ++
          (DataType.Interval .DayTime).fmt ++ " " ++ toString (-1 : Int) ++ " " ++
          (DataType.Timestamp .Second none).fmt)) :=
  ⟨(c4_array_array_dispatch testT ⟨.Timestamp .Second none, [some 0]⟩
      ⟨.Timestamp .Second none, [some 3]⟩ 1).1 .Second none .Second none rfl rfl,
   (c4_array_array_dispatch testT ⟨.Interval .DayTime, [some 0]⟩
      ⟨.Timestamp .Second none, [some 3]⟩ 1).2.1 .DayTime .Second none rfl rfl rfl,
   (c4_array_array_dispatch testT ⟨.Interval .DayTime, [some 0]⟩
      ⟨.Timestamp .Second none, [some 3]⟩ (-1)).2.2 (by decide)⟩

/-- C5: `propagate_constraints` on bounds `[l, r]` returns the empty
result for a comparison operator with the certainly-false target,
delegates to comparison propagation for a comparison operator with any
other target, and delegates to arithmetic propagation for every
non-comparison operator. -/
theorem c5_propagate_constraints_dispatch {E : Type} (t : TemporalOps)
    (n : DateTimeIntervalExpr E) (interval : CPInterval) (l r : CPInterval)
    (rest : List CPInterval) :
    (t.is_comparison_op n.op = true → interval = CPInterval.CERTAINLY_FALSE →
      DateTimeIntervalExpr.propagate_constraints t n interval (l :: r :: rest) =
        some (.ok [])) ∧
    (t.is_comparison_op n.op = true → interval ≠ CPInterval.CERTAINLY_FALSE →
      DateTimeIntervalExpr.propagate_constraints t n interval (l :: r :: rest) =
        some (Except.map (fun p => [p.1, p.2]) (t.propagate_comparison n.op l r))) ∧
    (t.is_comparison_op n.op = false →
      DateTimeIntervalExpr.propagate_constraints t n interval (l :: r :: rest) =
        some (Except.map (fun p => [p.1, p.2]) (t.propagate_arithmetic n.op interval l r))) := by
  refine ⟨?_, ?_, ?_⟩
  · intro hcmp hfalse
    simp [DateTimeIntervalExpr.propagate_constraints, hcmp, hfalse]
  · intro hcmp hne
    simp only [DateTimeIntervalExpr.propagate_constraints, List.get?, hcmp,
      if_pos rfl, if_true, if_neg hne]
    cases h : t.propagate_comparison n.op l r with
    | error e => simp [Except.map, h]
    | ok p => obtain ⟨a, b⟩ := p; simp [Except.map, h]
  · intro hcmp
    simp only [DateTimeIntervalExpr.propagate_constraints, List.get?, hcmp,
      Bool.false_eq_true, if_false]
    cases h : t.propagate_arithmetic n.op interval l r with
    | error e => simp [Except.map, h]
    | ok p => obtain ⟨a, b⟩ := p; simp [Except.map, h]

theorem c5_witness :
    DateTimeIntervalExpr.propagate_constraints testT
        (⟨0, .Eq, 1, testSchema⟩ : DateTimeIntervalExpr Nat)
        CPInterval.CERTAINLY_FALSE
        [⟨.Int64 (some 0), .Int64 (some 1)⟩, ⟨.Int64 (some 2), .Int64 (some 3)⟩] =
      some (.ok []) ∧
    DateTimeIntervalExpr.propagate_constraints testT
        (⟨0, .Plus, 1, testSchema⟩ : DateTimeIntervalExpr Nat)
        ⟨.Int64 (some 0), .Int64 (some 9)⟩
        [⟨.Int64 (some 0), .Int64 (some 1)⟩, ⟨.Int64 (some 2), .Int64 (some 3)⟩] =
      some (Except.map (fun p => [p.1, p.2])
        (testT.propagate_arithmetic .Plus ⟨.Int64 (some 0), .Int64 (some 9)⟩
          ⟨.Int64 (some 0), .Int64 (some 1)⟩ ⟨.Int64 (some 2), .Int64 (some 3)⟩)) :=
  ⟨(c5_propagate_constraints_dispatch testT ⟨0, .Eq, 1, testSchema⟩
      CPInterval.CERTAINLY_FALSE ⟨.Int64 (some 0), .Int64 (some 1)⟩
      ⟨.Int64 (some 2), .Int64 (some 3)⟩ []).1 rfl rfl,
   (c5_propagate_constraints_dispatch testT ⟨0, .Plus, 1, testSchema⟩
      ⟨.Int64 (some 0), .Int64 (some 9)⟩ ⟨.Int64 (some 0), .Int64 (some 1)⟩
      ⟨.Int64 (some 2), .Int64 (some 3)⟩ []).2.2 rfl⟩

/-- Helper: the node a successful `try_new` returns holds exactly the
given children, operator and schema. -/
theorem try_new_ok_shape {E B : Type} (ops : ExprOps E B) {l : E} {op : Operator}
    {r : E} {s : Schema} {n : DateTimeIntervalExpr E}
    (h : DateTimeIntervalExpr.try_new ops l op r s = .ok n) :
    n = ⟨l, op, r, s⟩ := by
  unfold DateTimeIntervalExpr.try_new at h
  split at h
  · exact Except.noConfusion h
  · split at h
    · exact Except.noConfusion h
    · split at h <;> simp_all

/-- C8: `with_new_children` re-runs the full construction-time type
validation (`try_new`) on the new children with the node's operator
and stored schema, and applying it to a node's own children yields a
node structurally equal to the original. -/
theorem c8_with_new_children_revalidates {E B : Type} (ops : ExprOps E B) (l : E)
    (op : Operator) (r : E) (s : Schema) (n : DateTimeIntervalExpr E)
    (h : DateTimeIntervalExpr.try_new ops l op r s = .ok n)
    (href : ∀ e, ops.beq e e = true) :
    (∀ c0 c1 rest, DateTimeIntervalExpr.with_new_children ops n (c0 :: c1 :: rest) =
      some (DateTimeIntervalExpr.try_new ops c0 n.op c1 n.input_schema)) ∧
    (∃ n2, DateTimeIntervalExpr.with_new_children ops n n.children = some (.ok n2) ∧
      DateTimeIntervalExpr.eqAny ops n2 (.dtExpr n) = true) := by
  have hn : n = ⟨l, op, r, s⟩ := try_new_ok_shape ops h
  subst hn
  constructor
  · intro c0 c1 rest
    rfl
  · refine ⟨⟨l, op, r, s⟩, ?_, ?_⟩
    · simpa [DateTimeIntervalExpr.with_new_children, DateTimeIntervalExpr.children]
        using h
    · simp [DateTimeIntervalExpr.eqAny, href]

theorem c8_witness :
    ∃ n2, DateTimeIntervalExpr.with_new_children testOps ⟨0, .Plus, 1, testSchema⟩
        (DateTimeIntervalExpr.children ⟨0, .Plus, 1, testSchema⟩) = some (.ok n2) ∧
      DateTimeIntervalExpr.eqAny testOps n2
        (.dtExpr ⟨0, .Plus, 1, testSchema⟩) = true :=
  (c8_with_new_children_revalidates testOps 0 .Plus 1 testSchema
    ⟨0, .Plus, 1, testSchema⟩ rfl (fun e => by simp [testOps])).2

/-- C9: node equality compares exactly the left children, the
operators and the right children; the stored input schema does not
participate, and comparison against a non-node value is `false`. -/
theorem c9_equality_structure {E B : Type} (ops : ExprOps E B)
    (n : DateTimeIntervalExpr E) (href : ∀ e, ops.beq e e = true) :
    (∀ m : DateTimeIntervalExpr E,
      (DateTimeIntervalExpr.eqAny ops n (.dtExpr m) = true ↔
        ops.beq n.lhs m.lhs = true ∧ n.op = m.op ∧ ops.beq n.rhs m.rhs = true)) ∧
    (∀ s2, DateTimeIntervalExpr.eqAny ops n (.dtExpr ⟨n.lhs, n.op, n.rhs, s2⟩) = true) ∧
    (∀ tag, DateTimeIntervalExpr.eqAny ops n (.other tag) = false) := by
  refine ⟨?_, ?_, ?_⟩
  · intro m
    simp [DateTimeIntervalExpr.eqAny, and_assoc]
  · intro s2
    simp [DateTimeIntervalExpr.eqAny, href]
  · intro tag
    rfl

theorem c9_witness :
    DateTimeIntervalExpr.eqAny testOps ⟨0, .Plus, 1, testSchema⟩
      (.dtExpr ⟨0, .Plus, 1, testSchema2⟩) = true :=
  (c9_equality_structure testOps ⟨0, .Plus, 1, testSchema⟩
    (fun e => by simp [testOps])).2.1 testSchema2

/-- C10: `evaluate_bounds` and `propagate_constraints` index positions
0 and 1 of the children-bounds slice without a length check: with
fewer than two bounds the indexing panics (modelled as `none` rather
than a returned error), and with at least two bounds both calls
proceed past the indexing (a `some` result). -/
theorem c10_bounds_require_two_children {E : Type} (t : TemporalOps)
    (n : DateTimeIntervalExpr E) (interval : CPInterval)
    (children : List CPInterval) :
    (children.length < 2 →
      DateTimeIntervalExpr.evaluate_bounds t n children = none ∧
      DateTimeIntervalExpr.propagate_constraints t n interval children = none) ∧
    (2 ≤ children.length →
      (DateTimeIntervalExpr.evaluate_bounds t n children).isSome = true ∧
      (DateTimeIntervalExpr.propagate_constraints t n interval children).isSome = true) := by
  match children with
  | [] =>
    exact ⟨fun _ => ⟨rfl, rfl⟩, fun hlen => absurd hlen (by simp)⟩
  | [a] =>
    exact ⟨fun _ => ⟨rfl, rfl⟩, fun hlen => absurd hlen (by simp)⟩
  | a :: b :: rest =>
    refine ⟨fun hlen => absurd hlen (by simp), fun _ => ⟨?_, ?_⟩⟩
    · simp [DateTimeIntervalExpr.evaluate_bounds]
    · simp [DateTimeIntervalExpr.propagate_constraints]

theorem c10_witness :
    0 < 2 ∧
    DateTimeIntervalExpr.evaluate_bounds testT
      (⟨0, .Plus, 1, testSchema⟩ : DateTimeIntervalExpr Nat) [] = none ∧
    DateTimeIntervalExpr.propagate_constraints testT
      (⟨0, .Plus, 1, testSchema⟩ : DateTimeIntervalExpr Nat)
      ⟨.Int64 (some 0), .Int64 (some 1)⟩ [] = none :=
  ⟨by decide,
   (c10_bounds_require_two_children testT ⟨0, .Plus, 1, testSchema⟩
      ⟨.Int64 (some 0), .Int64 (some 1)⟩ []).1 (by decide)⟩

end ArrowDF
